import Mathlib

set_option maxRecDepth 4000

/-!
Verification of the operational-processing layer of the ccic repository
(files ccic/processing.py and ccic/bin/run_validation_retrieval.py)
against its natural-language specification.

The Python functions are shallowly embedded as executable Lean
definitions: numpy arrays become lists (of lists), probabilities and
pixel values become rationals, NaN becomes the none value of Option,
exceptions become Except values, and the sqlite database backing the
processing log becomes an association list keyed by filename.
Concrete rational constants inside computable definitions are written
with mkRat so that the kernel can evaluate them; bridging lemmas relate
them to the usual fraction notation.
-/

namespace CCIC

/-! ## Cloud-class selection (determine_cloud_class, processing.py lines 165 to 194) -/

/-- Index of the first maximal element of a list of rationals, matching
the semantics of numpy argmax (ties resolved to the first occurrence;
the empty list is given index 0 as a harmless default). -/
def argmaxIdx : List ℚ → ℕ
  | [] => 0
  | [_] => 0
  | x :: y :: ys =>
    if x < (y :: ys).getD (argmaxIdx (y :: ys)) 0 then argmaxIdx (y :: ys) + 1 else 0

/-- The decision threshold 0.638 applied to the no-cloud probability. -/
def noCloudThreshold : ℚ := mkRat 638 1000

/-- Embedding of determine_cloud_class applied to the probability vector
of one element: the output is initialised to 0 and overwritten with
1 + argmax of the remaining channels exactly where the no-cloud channel
(index 0) is below 0.638. -/
def determine_cloud_class : List ℚ → ℕ
  | [] => 0
  | p0 :: rest => if p0 < noCloudThreshold then 1 + argmaxIdx rest else 0

/-- Masking applied to the cloud-type probabilities in process_input
(lines 634 to 638): at every pixel flagged by the invalid mask, every
class-probability channel is overwritten with the value -1. -/
def maskCloudType {β π : Type} (invalid : β → π → Bool)
    (ct : β → π → List ℚ) : β → π → List ℚ :=
  fun b p => if invalid b p then (ct b p).map (fun _ => (-1 : ℚ)) else ct b p

/-! ## Fixed vertical coordinate attached by process_input (line 677) -/

/-- The altitude coordinate attached to the result dataset by
process_input: np.arange(20) * 1e3 + 500.0. -/
def altitude_levels : List ℚ :=
  (List.range 20).map (fun i => (i : ℚ) * 1000 + 500)

/-! ## The two-stage pipeline of run_validation_retrieval.py -/

/-- External capabilities used by one iteration of the download stage:
checking whether data for a date is present, downloading it, and putting
the work item on the processing queue. Each can raise an exception,
modelled by Except. -/
structure DlEnv (α ε : Type) where
  has_data : α → Except ε Bool
  download_data : α → Except ε Unit
  put_item : α → Except ε Unit

/-- The body of the try block of download_data (lines 128 to 131):
check availability, download when the data is absent, then forward the
item to the processing queue. -/
def handle_one {α ε : Type} (env : DlEnv α ε) (a : α) : Except ε Unit := do
  let present ← env.has_data a
  if !present then env.download_data a
  env.put_item a

/-- Result of one run of the download stage: the contents put on the
processing queue, the logged exceptions, and the work items handled. -/
structure DlRun (α ε : Type) where
  queue : List (Option α)
  logs : List ε
  handled : List α

/-- Embedding of the download_data worker loop (lines 107 to 134): items
are taken from the download queue until the None sentinel, each is
handled by the try block with exceptions logged, successfully handled
items are forwarded, and on the sentinel the loop breaks and a single
terminating None is put on the processing queue. An exhausted queue with
no sentinel leaves the loop blocked, producing nothing further. -/
def download_data {α ε : Type} (env : DlEnv α ε) : List (Option α) → DlRun α ε
  | [] => ⟨[], [], []⟩
  | none :: _ => ⟨[none], [], []⟩
  | some a :: rest =>
    let r := download_data env rest
    match handle_one env a with
    | Except.ok _ => ⟨some a :: r.queue, r.logs, a :: r.handled⟩
    | Except.error e => ⟨r.queue, e :: r.logs, a :: r.handled⟩

/-- The logged exception of a computation, if any. -/
def errOpt {ε β : Type} : Except ε β → Option ε
  | Except.ok _ => none
  | Except.error e => some e

/-- Whether a computation succeeded. -/
def isOk {ε β : Type} (x : Except ε β) : Bool := (errOpt x).isNone

/-- Embedding of the process_files worker loop (lines 137 to 180): items
are taken from the processing queue until the None sentinel; each is
processed by process_day, exceptions are logged and the loop continues.
The result records, per handled item, the logged exception if any. -/
def process_files {α ε : Type} (process_day : α → Except ε Unit) :
    List (Option α) → List (α × Option ε)
  | [] => []
  | none :: _ => []
  | some a :: rest =>
    (a, errOpt (process_day a)) :: process_files process_day rest

/-- A download environment over natural-number work items in which item 1
fails (its availability check raises) and every other item succeeds. -/
def failEnv : DlEnv ℕ Unit where
  has_data := fun n => if n = 1 then Except.error () else Except.ok true
  download_data := fun _ => Except.ok ()
  put_item := fun _ => Except.ok ()

/-! ## Invalid-region detection (get_invalid_mask, lines 491 to 514) -/

/-- A boolean image, stored as a list of rows. -/
abbrev Grid := List (List Bool)

/-- An all-false row of the same width as the rows of a grid. -/
def falseRow (g : Grid) : List Bool := (g.headD []).map (fun _ => false)

/-- Row i of the result is row i+1 of the input; values shifted in from
outside the image are false. -/
def shiftUp (g : Grid) : Grid := g.drop 1 ++ [falseRow g]

/-- Row i of the result is row i-1 of the input; values shifted in from
outside the image are false. -/
def shiftDown (g : Grid) : Grid := falseRow g :: g.dropLast

/-- Column j of the result is column j+1 of the input row. -/
def shiftLeftRow (row : List Bool) : List Bool := row.drop 1 ++ [false]

/-- Column j of the result is column j-1 of the input row. -/
def shiftRightRow (row : List Bool) : List Bool := false :: row.dropLast

/-- Pointwise combination of two grids of equal shape. -/
def zipGrid (f : Bool → Bool → Bool) (a b : Grid) : Grid :=
  List.zipWith (List.zipWith f) a b

/-- One scipy binary_dilation step with the default cross-shaped
structuring element and border_value 0: a pixel becomes true when it or
one of its four neighbours is true. -/
def dilate (g : Grid) : Grid :=
  zipGrid or (zipGrid or g (shiftUp g))
    (zipGrid or (shiftDown g) (zipGrid or (g.map shiftLeftRow) (g.map shiftRightRow)))

/-- One scipy binary_erosion step with the default cross-shaped
structuring element and border_value 0: a pixel stays true only when it
and all four neighbours are true, pixels outside the image counting as
false. -/
def erode (g : Grid) : Grid :=
  zipGrid and (zipGrid and g (shiftUp g))
    (zipGrid and (shiftDown g) (zipGrid and (g.map shiftLeftRow) (g.map shiftRightRow)))

/-- scipy binary_closing with iterations=8 and border_value=0: eight
dilation steps followed by eight erosion steps. -/
def binary_closing8 (g : Grid) : Grid := Nat.iterate erode 8 (Nat.iterate dilate 8 g)

/-- Reflection of an out-of-range index into the range [0, n), matching
numpy pad mode reflect (the edge value is not repeated) for pad widths
of at most n - 1. -/
def reflectIdx (n : ℕ) (k : ℤ) : ℤ :=
  if k < 0 then -k else if (n : ℤ) ≤ k then 2 * ((n : ℤ) - 1) - k else k

/-- Cell access with false outside the grid. -/
def getCell (g : Grid) (i j : ℤ) : Bool :=
  if 0 ≤ i ∧ 0 ≤ j then (g.getD i.toNat []).getD j.toNat false else false

/-- numpy pad of a boolean image by 8 pixels on each spatial side with
mode reflect. -/
def reflect_pad8 (g : Grid) : Grid :=
  (List.range (g.length + 16)).map fun i =>
    (List.range ((g.headD []).length + 16)).map fun j =>
      getCell g (reflectIdx g.length ((i : ℤ) - 8))
        (reflectIdx (g.headD []).length ((j : ℤ) - 8))

/-- The crop [8:-8, 8:-8] back to the original h by w size. -/
def crop8 (h w : ℕ) (g : Grid) : Grid :=
  ((g.drop 8).take h).map (fun row => (row.drop 8).take w)

/-- Value access in a single-channel rational image. The default is the
sentinel value, but it is never reached for in-range indices. -/
def getQ (c : List (List ℚ)) (i j : ℕ) : ℚ := (c.getD i []).getD j (mkRat (-3) 2)

/-- The presence mask: a pixel is present when any channel value exceeds
-1.4 (np.any(x_in[ind] > -1.4, axis=0)). -/
def present_mask (chs : List (List (List ℚ))) (h w : ℕ) : Grid :=
  (List.range h).map fun i =>
    (List.range w).map fun j =>
      chs.any fun c => decide (mkRat (-14) 10 < getQ c i j)

/-- get_invalid_mask for one batch element (one iteration of the loop in
lines 509 to 513): threshold, pad by 8 with reflection, binary closing
with 8 iterations, crop back, and invert. -/
def get_invalid_mask_elem (chs : List (List (List ℚ))) : Grid :=
  (crop8 (chs.headD []).length ((chs.headD []).headD []).length
      (binary_closing8 (reflect_pad8
        (present_mask chs (chs.headD []).length ((chs.headD []).headD []).length)))).map
    (fun row => row.map not)

/-- get_invalid_mask over a whole batch. -/
def get_invalid_mask (batch : List (List (List (List ℚ)))) : List Grid :=
  batch.map get_invalid_mask_elem

/-- True when no pixel of the mask is set. -/
def allFalse (g : Grid) : Bool := g.all fun row => row.all (fun b => !b)

/-- Mask value at pixel (i, j), false when out of range. -/
def maskCell (g : Grid) (i j : ℕ) : Bool := (g.getD i []).getD j false

/-- A 9 by 9 single-channel tile whose centre pixel carries the missing
sentinel -1.5 and whose other pixels are valid. -/
def tileIsolated : List (List ℚ) :=
  (List.range 9).map fun i => (List.range 9).map fun j =>
    if i = 4 ∧ j = 4 then mkRat (-3) 2 else 0

/-- An 18 by 18 single-channel tile with a contiguous 16 by 16 block of
the missing sentinel -1.5 (rows and columns 1 to 16) surrounded by a
one-pixel ring of valid pixels. -/
def tileBlock16 : List (List ℚ) :=
  (List.range 18).map fun i => (List.range 18).map fun j =>
    if 1 ≤ i ∧ i ≤ 16 ∧ 1 ≤ j ∧ j ≤ 16 then mkRat (-3) 2 else 0

/-- A 19 by 19 single-channel tile with a contiguous 17 by 17 block of
the missing sentinel -1.5 (rows and columns 1 to 17) surrounded by a
one-pixel ring of valid pixels. -/
def tileBlock17 : List (List ℚ) :=
  (List.range 19).map fun i => (List.range 19).map fun j =>
    if 1 ≤ i ∧ i ≤ 17 ∧ 1 ≤ j ∧ j ≤ 17 then mkRat (-3) 2 else 0

/-! ## Regression-target processing (process_regression_target, lines 428 to 488) -/

/-- The available output formats. -/
inductive OutputFormat where
  | NETCDF : OutputFormat
  | ZARR : OutputFormat

/-- The RetrievalSettings record (lines 102 to 117) with its defaults. -/
structure RetrievalSettings where
  tile_size : ℕ := 512
  overlap : ℕ := 128
  targets : Option (List String) := none
  roi : Option (List ℚ) := none
  device : String := "cpu"
  precision : ℕ := 32
  output_format : OutputFormat := OutputFormat.NETCDF
  database_path : Option String := some "ccic_processing.db"
  inpainted_mask : Bool := false
  confidence_interval : ℚ := 9 / 10

/-- The regression targets (line 423). -/
def REGRESSION_TARGETS : List String := ["tiwp", "tiwp_fpavg", "tiwc"]

/-- The scalar regression targets (line 424). -/
def SCALAR_TARGETS : List String := ["tiwp", "tiwp_fpavg"]

/-- The fixed exceedance thresholds (line 425). -/
def THRESHOLDS : List (String × ℚ) :=
  [("tiwp", 1 / 1000), ("tiwp_fpavg", 1 / 1000), ("tiwc", 1 / 1000)]

/-- The opaque predictor: posterior statistics per target key, batch
element and pixel. posterior_quantiles takes the two quantile levels and
returns the pair of quantile values. -/
structure MRNN (β π : Type) where
  posterior_mean : String → β → π → ℚ
  posterior_quantiles : String → ℚ → ℚ → β → π → ℚ × ℚ
  probability_larger_than : String → ℚ → β → π → ℚ

/-- Per-batch-element masking of a scalar field: pixels flagged by the
invalid mask become NaN, modelled as none. -/
def mask_nan {β π : Type} (invalid : β → π → Bool) (g : β → π → ℚ) :
    β → π → Option ℚ :=
  fun b p => if invalid b p then none else some (g b p)

/-- Per-batch-element masking of a two-channel field (the two confidence
bounds): at flagged pixels both channels become NaN. -/
def mask_nan2 {β π : Type} (invalid : β → π → Bool) (g : β → π → ℚ × ℚ) :
    β → π → Option ℚ × Option ℚ :=
  fun b p => if invalid b p then (none, none) else (some (g b p).1, some (g b p).2)

/-- Embedding of process_regression_target: the masked posterior mean is
always produced; for scalar targets the masked confidence interval at
quantile levels 0.5 * (1 - c) and 1 - 0.5 * (1 - c) and the masked
probability of exceeding the target threshold are produced as well. -/
def process_regression_target {β π : Type} (rs : RetrievalSettings)
    (mrnn : MRNN β π) (invalid : β → π → Bool) (target : String) :
    (β → π → Option ℚ) ×
      Option ((β → π → Option ℚ × Option ℚ) × (β → π → Option ℚ)) :=
  if target ∈ SCALAR_TARGETS then
    (mask_nan invalid (mrnn.posterior_mean target),
     some (mask_nan2 invalid
             (mrnn.posterior_quantiles target
               (1 / 2 * (1 - rs.confidence_interval))
               (1 - 1 / 2 * (1 - rs.confidence_interval))),
           mask_nan invalid
             (mrnn.probability_larger_than target
               ((THRESHOLDS.lookup target).getD 0))))
  else
    (mask_nan invalid (mrnn.posterior_mean target), none)

/-- A trivial concrete predictor over unit batch and pixel types. -/
def wMRNN : MRNN Unit Unit where
  posterior_mean := fun _ _ _ => 0
  posterior_quantiles := fun _ _ _ _ _ => (0, 0)
  probability_larger_than := fun _ _ _ _ => 0

/-! ## Processing log (ProcessingLog, lines 223 to 390) -/

/-- One row of the files table of the processing-log database. NaN float
statistics are modelled as none, the log blob as a string. -/
structure LogEntry where
  date : ℕ
  success : Bool
  output_file : String
  tiwp_min : Option ℚ
  tiwp_max : Option ℚ
  tiwp_mean : Option ℚ
  n_missing : Int
  log : String

/-- The files table, keyed by input filename. -/
abbrev LogDb := List (String × LogEntry)

/-- SELECT by primary key: the first row with the given name. -/
def db_lookup : LogDb → String → Option LogEntry
  | [], _ => none
  | (k, e) :: rest, name => if k = name then some e else db_lookup rest name

/-- UPDATE by primary key: apply f to every row with the given name. -/
def db_update (db : LogDb) (name : String) (f : LogEntry → LogEntry) : LogDb :=
  db.map fun kv => if kv.1 = name then (kv.1, f kv.2) else kv

/-- The tiwp summary statistics of a result dataset, present exactly
when the result contains the tiwp variable. -/
structure TiwpStats where
  mean : ℚ
  min : ℚ
  max : ℚ
  n_missing : ℕ

/-- The field update performed by finalize on an existing row: success
is set, the output file recorded, and the tiwp statistics stored (NaN
and -1 when the result has no tiwp variable). -/
def finalize_entry (results : Option TiwpStats) (output_file : String)
    (e : LogEntry) : LogEntry :=
  match results with
  | some s =>
    { e with success := true, output_file := output_file,
             tiwp_min := some s.min, tiwp_max := some s.max,
             tiwp_mean := some s.mean, n_missing := (s.n_missing : Int) }
  | none =>
    { e with success := true, output_file := output_file,
             tiwp_min := none, tiwp_max := none, tiwp_mean := none,
             n_missing := -1 }

namespace ProcessingLog

/-- ProcessingLog.finalize (lines 344 to 390): a no-op without a
database path; otherwise, when a row for the input file exists, its
success flag, output file and statistics are overwritten. -/
def finalize (database_path : Option String) (input_file : String)
    (results : Option TiwpStats) (output_file : String) (db : LogDb) : LogDb :=
  match database_path with
  | none => db
  | some _ =>
    match db_lookup db input_file with
    | none => db
    | some _ => db_update db input_file (finalize_entry results output_file)

/-- ProcessingLog.finish_logging (lines 322 to 342): a no-op without a
database path; otherwise the stored log blob is replaced by itself
concatenated with the newly captured text. Reading a missing row raises,
modelled as none. -/
def finish_logging (database_path : Option String) (input_file : String)
    (captured : String) (db : LogDb) : Option LogDb :=
  match database_path with
  | none => some db
  | some _ =>
    match db_lookup db input_file with
    | none => none
    | some _ =>
      some (db_update db input_file (fun e => { e with log := e.log ++ captured }))

/-- ProcessingLog._init_entry (lines 268 to 295): a no-op without a
database path; otherwise a fresh pending row is inserted when none
exists for the input file. -/
def init_entry (database_path : Option String) (input_file : String)
    (now : ℕ) (db : LogDb) : LogDb :=
  match database_path with
  | none => db
  | some _ =>
    match db_lookup db input_file with
    | some _ => db
    | none =>
      db ++ [(input_file,
        { date := now, success := false, output_file := "",
          tiwp_min := none, tiwp_max := none, tiwp_mean := none,
          n_missing := -1, log := "" })]

end ProcessingLog

/-- A concrete pending log row. -/
def wEntry : LogEntry :=
  { date := 0, success := false, output_file := "",
    tiwp_min := none, tiwp_max := none, tiwp_mean := none,
    n_missing := -1, log := "" }

/-- A one-row concrete database. -/
def wDb : LogDb := [("f", wEntry)]

/-! ## RemoteFile (lines 32 to 90) -/

/-- The externally visible effects of RemoteFile.get: waiting for a
prefetch task or downloading the file to an output path. -/
inductive RemoteAction where
  | await_prefetch : RemoteAction
  | download : String → String → RemoteAction

/-- The RemoteFile wrapper: a filename, the working directory given at
construction (if any), and whether a prefetch task was scheduled. -/
structure RemoteFile where
  filename : String
  working_dir : Option String
  prefetch_task : Bool

/-- RemoteFile.get (lines 62 to 90): the working directory defaults to
the one given at construction; when neither is available a ValueError is
raised immediately, before any download is attempted. Otherwise the
output path and the performed action are returned. -/
def RemoteFile.get (rf : RemoteFile) (working_dir : Option String) :
    Except String (String × List RemoteAction) :=
  match (match working_dir with
         | none => rf.working_dir
         | some w => some w) with
  | none =>
    Except.error "A working_dir must be provided either on creation of the RemoteFile object or when the get method is called."
  | some w =>
    if rf.prefetch_task then
      Except.ok (w ++ "/" ++ rf.filename, [RemoteAction.await_prefetch])
    else
      Except.ok (w ++ "/" ++ rf.filename,
        [RemoteAction.download rf.filename (w ++ "/" ++ rf.filename)])

/-- A RemoteFile constructed without a working directory. -/
def wRemote : RemoteFile := ⟨"file.nc", none, false⟩

end CCIC

namespace CCIC

/-- The threshold constant equals the decimal 0.638. -/
theorem noCloudThreshold_eq : noCloudThreshold = 638 / 1000 := by
  norm_num [noCloudThreshold, Rat.mkRat_eq_div]

/-- The first maximal index of a constant list is 0. -/
theorem argmaxIdx_replicate (n : ℕ) (c : ℚ) :
    argmaxIdx (List.replicate (n + 1) c) = 0 := by
  induction n with
  | zero => rfl
  | succ m ih =>
    have hrep : List.replicate (m + 2) c = c :: c :: List.replicate m c := rfl
    have hrep1 : List.replicate (m + 1) c = c :: List.replicate m c := rfl
    rw [hrep, argmaxIdx, ← hrep1, ih]
    simp

/-- C1: determine_cloud_class returns class 0 exactly when the no-cloud
channel is at least 0.638, and otherwise 1 + argmax of the remaining
channels; the vector [0.7, 0.1, 0.2] maps to 0 and [0.2, 0.5, 0.3] maps
to 1 (the argmax over the remaining channels [0.5, 0.3] is 0). -/
theorem determine_cloud_class_rule :
    (∀ (p0 : ℚ) (rest : List ℚ),
        determine_cloud_class (p0 :: rest)
          = if 638 / 1000 ≤ p0 then 0 else 1 + argmaxIdx rest)
    ∧ determine_cloud_class [7/10, 1/10, 2/10] = 0
    ∧ determine_cloud_class [2/10, 5/10, 3/10] = 1 := by
  refine ⟨fun p0 rest => ?_, ?_, ?_⟩
  · rw [determine_cloud_class, noCloudThreshold_eq]
    rcases le_or_lt (638 / 1000 : ℚ) p0 with h | h
    · rw [if_neg (not_lt.mpr h), if_pos h]
    · rw [if_pos h, if_neg (not_le.mpr h)]
  · norm_num [determine_cloud_class, noCloudThreshold_eq]
  · norm_num [determine_cloud_class, argmaxIdx, noCloudThreshold_eq]

/-- C1 counterexample: the probability vector [0.2, 0.5, 0.3] does not
map to class 2; it maps to class 1, since the argmax over the remaining
channels [0.5, 0.3] is index 0 and the returned class is 1 + 0. -/
theorem determine_cloud_class_example_counterexample :
    determine_cloud_class [2/10, 5/10, 3/10] ≠ 2 := by
  norm_num [determine_cloud_class, argmaxIdx, noCloudThreshold_eq]

/-- The queue produced by one download-stage run over N work items and
the sentinel: the successfully handled items in order, then one None. -/
theorem download_queue_eq {α ε : Type} (env : DlEnv α ε) (items : List α) :
    (download_data env (items.map some ++ [none])).queue
      = (items.filter fun a => isOk (handle_one env a)).map some ++ [none] := by
  induction items with
  | nil => rfl
  | cons a rest ih =>
    cases he : handle_one env a with
    | ok u => cases u; simp [download_data, he, isOk, errOpt, ih]
    | error e => simp [download_data, he, isOk, errOpt, ih]

/-- The exceptions logged by one download-stage run: one per failing
item, in order. -/
theorem download_logs_eq {α ε : Type} (env : DlEnv α ε) (items : List α) :
    (download_data env (items.map some ++ [none])).logs
      = items.filterMap (fun a => errOpt (handle_one env a)) := by
  induction items with
  | nil => rfl
  | cons a rest ih =>
    cases he : handle_one env a with
    | ok u => cases u; simp [download_data, he, isOk, errOpt, ih]
    | error e => simp [download_data, he, isOk, errOpt, ih]

/-- One download-stage run handles every enqueued work item exactly
once, in order. -/
theorem download_handled_eq {α ε : Type} (env : DlEnv α ε) (items : List α) :
    (download_data env (items.map some ++ [none])).handled = items := by
  induction items with
  | nil => rfl
  | cons a rest ih =>
    cases he : handle_one env a with
    | ok u => cases u; simp [download_data, he, ih]
    | error e => simp [download_data, he, ih]

/-- One process-stage run over forwarded items followed by the sentinel
terminates and records, per item, the logged exception if any. -/
theorem process_files_run_eq {α ε : Type} (proc : α → Except ε Unit)
    (fw : List α) :
    process_files proc (fw.map some ++ [none])
      = fw.map fun a => (a, errOpt (proc a)) := by
  induction fw with
  | nil => rfl
  | cons a rest ih => simp [process_files, ih]

/-- C2: for N work items followed by the None sentinel, the download
stage forwards exactly the successfully handled items followed by one
terminating None, logs one exception per failing item, handles every
item exactly once (so one failure does not prevent the others), and the
process stage consumes the forwarded queue to completion, terminating on
None and logging per-item exceptions. -/
theorem pipeline_stage_runs {α ε : Type} (env : DlEnv α ε)
    (process_day : α → Except ε Unit) (items : List α) :
    (download_data env (items.map some ++ [none])).queue
        = (items.filter fun a => isOk (handle_one env a)).map some ++ [none]
    ∧ (download_data env (items.map some ++ [none])).logs
        = items.filterMap (fun a => errOpt (handle_one env a))
    ∧ (download_data env (items.map some ++ [none])).handled = items
    ∧ process_files process_day
          ((items.filter fun a => isOk (handle_one env a)).map some ++ [none])
        = (items.filter fun a => isOk (handle_one env a)).map
            (fun a => (a, errOpt (process_day a))) :=
  ⟨download_queue_eq env items, download_logs_eq env items,
   download_handled_eq env items, process_files_run_eq process_day _⟩

/-- C10: a work item whose handling fails is never forwarded to the
processing queue, and every item is handled exactly once (no retry). -/
theorem download_failure_skips_item {α ε : Type} (env : DlEnv α ε)
    (items : List α) (a : α) (h : isOk (handle_one env a) = false) :
    some a ∉ (download_data env (items.map some ++ [none])).queue
    ∧ (download_data env (items.map some ++ [none])).handled = items := by
  refine ⟨?_, download_handled_eq env items⟩
  rw [download_queue_eq env items]
  intro hmem
  rcases List.mem_append.mp hmem with hmem | hmem
  · rcases List.mem_map.mp hmem with ⟨b, hb, hba⟩
    obtain rfl : b = a := Option.some.inj hba
    have hpred := List.of_mem_filter hb
    rw [h] at hpred
    exact Bool.false_ne_true hpred
  · simp at hmem

/-- C10 witness: in a concrete environment where item 1 fails its
availability check, running the stage on items [0, 1, 2] never forwards
item 1 and handles all three items. -/
theorem download_failure_skips_item_witness :
    isOk (handle_one failEnv 1) = false
    ∧ (some 1 ∉ (download_data failEnv ([0, 1, 2].map some ++ [none])).queue
       ∧ (download_data failEnv ([0, 1, 2].map some ++ [none])).handled
           = [0, 1, 2]) :=
  ⟨rfl, download_failure_skips_item failEnv [0, 1, 2] 1 rfl⟩

/-- C5 counterexample: a pixel whose eight cloud-type probability
channels were all overwritten with the sentinel -1 is assigned class 1,
a valid cloud class, not a no-determination value: -1 is below the
0.638 threshold, so the pixel counts as cloudy, and the argmax over the
equal remaining channels is 0, giving class 1 + 0. -/
theorem cloud_type_sentinel_counterexample :
    determine_cloud_class (List.replicate 8 (-1)) = 1 ∧ (1 : ℕ) ≠ 0 := by
  constructor
  · norm_num [List.replicate, determine_cloud_class, argmaxIdx, noCloudThreshold_eq]
  · decide

/-- C5 amended: pixels flagged by the invalid mask have every
cloud-type probability channel set to the sentinel -1 (not NaN), and
determine_cloud_class has no special handling for such pixels: any
all-sentinel probability vector is assigned the valid cloud class 1. -/
theorem cloud_type_mask_sentinel {β π : Type} (invalid : β → π → Bool)
    (ct : β → π → List ℚ) (b : β) (p : π) (h : invalid b p = true) :
    maskCloudType invalid ct b p = (ct b p).map (fun _ => (-1 : ℚ))
    ∧ ∀ n : ℕ, determine_cloud_class (List.replicate (n + 2) (-1)) = 1 := by
  constructor
  · simp [maskCloudType, h]
  · intro n
    have hlt : (-1 : ℚ) < noCloudThreshold := by
      rw [noCloudThreshold_eq]; norm_num
    have hrep : List.replicate (n + 2) (-1 : ℚ)
        = (-1 : ℚ) :: List.replicate (n + 1) (-1) := rfl
    rw [hrep]
    simp only [determine_cloud_class]
    rw [if_pos hlt, argmaxIdx_replicate]

/-- C5 witness: at a concrete always-invalid pixel the masking step
produces the all-sentinel channel vector. -/
theorem cloud_type_mask_sentinel_witness :
    (fun (_ : Unit) (_ : Unit) => true) () () = true
    ∧ maskCloudType (fun (_ : Unit) (_ : Unit) => true)
        (fun _ _ => List.replicate 8 (0 : ℚ)) () ()
      = (List.replicate 8 (0 : ℚ)).map (fun _ => (-1 : ℚ)) :=
  ⟨rfl, (cloud_type_mask_sentinel _ _ () () rfl).1⟩

/-- The altitude coordinate evaluated. -/
theorem altitude_levels_eval :
    altitude_levels
      = [500, 1500, 2500, 3500, 4500, 5500, 6500, 7500, 8500, 9500, 10500,
         11500, 12500, 13500, 14500, 15500, 16500, 17500, 18500, 19500] := by
  norm_num [altitude_levels, List.range_succ]

/-- C6 counterexample: the spacing between the first two altitude
levels is 1000 m, not the claimed 500 m. -/
theorem altitude_spacing_counterexample :
    altitude_levels.getD 1 0 - altitude_levels.getD 0 0 = 1000
    ∧ (1000 : ℚ) ≠ 500 := by
  constructor
  · rw [altitude_levels_eval]
    norm_num
  · norm_num

/-- C6 amended: the vertical coordinate attached by process_input has
20 fixed-height levels with 1000 m spacing and the first level at
500 m, namely 500, 1500, ..., 19500 m. -/
theorem altitude_levels_spec :
    altitude_levels
      = [500, 1500, 2500, 3500, 4500, 5500, 6500, 7500, 8500, 9500, 10500,
         11500, 12500, 13500, 14500, 15500, 16500, 17500, 18500, 19500]
    ∧ altitude_levels.length = 20
    ∧ altitude_levels.getD 0 0 = 500 :=
  ⟨altitude_levels_eval, by rw [altitude_levels_eval]; rfl,
   by rw [altitude_levels_eval]; rfl⟩

/-- C4: for every scalar regression target, process_regression_target
produces, besides the masked posterior mean, the confidence interval at
quantile levels 0.5 * (1 - c) and 1 - 0.5 * (1 - c) and the probability
of exceeding the fixed threshold 1e-3; both are masked exactly like the
mean (invalid pixels become NaN, modelled as none), and the default
confidence level is 0.9. -/
theorem process_regression_scalar {β π : Type} (rs : RetrievalSettings)
    (mrnn : MRNN β π) (invalid : β → π → Bool) (target : String)
    (h : target ∈ SCALAR_TARGETS) :
    process_regression_target rs mrnn invalid target
      = (mask_nan invalid (mrnn.posterior_mean target),
         some (mask_nan2 invalid
                 (mrnn.posterior_quantiles target
                   (1 / 2 * (1 - rs.confidence_interval))
                   (1 - 1 / 2 * (1 - rs.confidence_interval))),
               mask_nan invalid
                 (mrnn.probability_larger_than target (1 / 1000))))
    ∧ (∀ b p, invalid b p = true →
          mask_nan invalid (mrnn.posterior_mean target) b p = none
          ∧ mask_nan2 invalid
              (mrnn.posterior_quantiles target
                (1 / 2 * (1 - rs.confidence_interval))
                (1 - 1 / 2 * (1 - rs.confidence_interval))) b p = (none, none)
          ∧ mask_nan invalid
              (mrnn.probability_larger_than target (1 / 1000)) b p = none)
    ∧ (∀ b p, (mask_nan2 invalid
          (mrnn.posterior_quantiles target
            (1 / 2 * (1 - rs.confidence_interval))
            (1 - 1 / 2 * (1 - rs.confidence_interval))) b p).1.isNone
        = (mask_nan invalid (mrnn.posterior_mean target) b p).isNone)
    ∧ ({} : RetrievalSettings).confidence_interval = 9 / 10 := by
  have hth : (THRESHOLDS.lookup target).getD 0 = 1 / 1000 := by
    fin_cases h <;> rfl
  refine ⟨?_, ?_, ?_, rfl⟩
  · simp only [process_regression_target, if_pos h, hth]
  · intro b p hbp
    exact ⟨by simp [mask_nan, hbp], by simp [mask_nan2, hbp],
           by simp [mask_nan, hbp]⟩
  · intro b p
    by_cases hbp : invalid b p <;> simp [mask_nan, mask_nan2, hbp]

/-- C4 witness: the target tiwp is a scalar target and the default
confidence level is 0.9. -/
theorem process_regression_scalar_witness :
    "tiwp" ∈ SCALAR_TARGETS
    ∧ ({} : RetrievalSettings).confidence_interval = 9 / 10 := by
  have h : "tiwp" ∈ SCALAR_TARGETS := by simp [SCALAR_TARGETS]
  exact ⟨h, (process_regression_scalar {} wMRNN (fun _ _ => false) "tiwp" h).2.2.2⟩

/-- Looking up the updated key returns the updated first match. -/
theorem db_lookup_update_self (db : LogDb) (name : String)
    (f : LogEntry → LogEntry) :
    db_lookup (db_update db name f) name = (db_lookup db name).map f := by
  induction db with
  | nil => rfl
  | cons kv rest ih =>
    obtain ⟨k, e⟩ := kv
    by_cases hk : k = name
    · subst hk
      have h1 : db_update ((k, e) :: rest) k f = (k, f e) :: db_update rest k f := by
        simp [db_update]
      have h2 : db_lookup ((k, f e) :: db_update rest k f) k = some (f e) := by
        simp [db_lookup]
      have h3 : db_lookup ((k, e) :: rest) k = some e := by
        simp [db_lookup]
      rw [h1, h2, h3]
      rfl
    · have h1 : db_update ((k, e) :: rest) name f = (k, e) :: db_update rest name f := by
        simp [db_update, hk]
      have h2 : db_lookup ((k, e) :: db_update rest name f) name
          = db_lookup (db_update rest name f) name := by
        simp [db_lookup, hk]
      have h3 : db_lookup ((k, e) :: rest) name = db_lookup rest name := by
        simp [db_lookup, hk]
      rw [h1, h2, h3, ih]

/-- Two successive updates of the same key compose pointwise. -/
theorem db_update_comp (db : LogDb) (name : String)
    (f g : LogEntry → LogEntry) :
    db_update (db_update db name f) name g
      = db_update db name (fun e => g (f e)) := by
  induction db with
  | nil => rfl
  | cons kv rest ih =>
    obtain ⟨k, e⟩ := kv
    by_cases hk : k = name
    · subst hk
      have h1 : db_update ((k, e) :: rest) k f = (k, f e) :: db_update rest k f := by
        simp [db_update]
      have h2 : db_update ((k, f e) :: db_update rest k f) k g
          = (k, g (f e)) :: db_update (db_update rest k f) k g := by
        simp [db_update]
      have h3 : db_update ((k, e) :: rest) k (fun e0 => g (f e0))
          = (k, g (f e)) :: db_update rest k (fun e0 => g (f e0)) := by
        simp [db_update]
      rw [h1, h2, h3, ih]
    · have h1 : db_update ((k, e) :: rest) name f = (k, e) :: db_update rest name f := by
        simp [db_update, hk]
      have h2 : db_update ((k, e) :: db_update rest name f) name g
          = (k, e) :: db_update (db_update rest name f) name g := by
        simp [db_update, hk]
      have h3 : db_update ((k, e) :: rest) name (fun e0 => g (f e0))
          = (k, e) :: db_update rest name (fun e0 => g (f e0)) := by
        simp [db_update, hk]
      rw [h1, h2, h3, ih]

/-- Applying the finalize field update twice with the same arguments is
the same as applying it once. -/
theorem finalize_entry_idem (r : Option TiwpStats) (o : String)
    (e : LogEntry) :
    finalize_entry r o (finalize_entry r o e) = finalize_entry r o e := by
  cases r <;> rfl

/-- A later finalize field update completely overwrites an earlier one. -/
theorem finalize_entry_absorb (r1 r2 : Option TiwpStats) (o1 o2 : String)
    (e : LogEntry) :
    finalize_entry r2 o2 (finalize_entry r1 o1 e) = finalize_entry r2 o2 e := by
  cases r1 <;> cases r2 <;> rfl

/-- On a database containing a row for the input file, finalize reduces
to the row update. -/
theorem finalize_eq_of_found (path input_file : String)
    (r : Option TiwpStats) (o : String) (db : LogDb) (e : LogEntry)
    (h : db_lookup db input_file = some e) :
    ProcessingLog.finalize (some path) input_file r o db
      = db_update db input_file (finalize_entry r o) := by
  unfold ProcessingLog.finalize
  rw [h]

/-- C7: with a row present for the input file, finalize is idempotent
and a later finalize overwrites the success and statistics fields of an
earlier one (last write wins), while finish_logging replaces the stored
log blob by the previous blob concatenated with the newly captured
text, so the blob only ever grows by appending. -/
theorem processing_log_finalize_and_append
    (path input_file captured : String) (db : LogDb) (e : LogEntry)
    (h : db_lookup db input_file = some e)
    (r1 r2 : Option TiwpStats) (o1 o2 : String) :
    ProcessingLog.finalize (some path) input_file r2 o2
        (ProcessingLog.finalize (some path) input_file r2 o2 db)
      = ProcessingLog.finalize (some path) input_file r2 o2 db
    ∧ db_lookup (ProcessingLog.finalize (some path) input_file r2 o2
          (ProcessingLog.finalize (some path) input_file r1 o1 db)) input_file
        = db_lookup
            (ProcessingLog.finalize (some path) input_file r2 o2 db) input_file
    ∧ ProcessingLog.finish_logging (some path) input_file captured db
        = some (db_update db input_file
            (fun e0 => { e0 with log := e0.log ++ captured }))
    ∧ db_lookup (db_update db input_file
          (fun e0 => { e0 with log := e0.log ++ captured })) input_file
        = some { e with log := e.log ++ captured } := by
  have hl1 : db_lookup (db_update db input_file (finalize_entry r1 o1)) input_file
      = some (finalize_entry r1 o1 e) := by
    rw [db_lookup_update_self, h]; rfl
  have hl2 : db_lookup (db_update db input_file (finalize_entry r2 o2)) input_file
      = some (finalize_entry r2 o2 e) := by
    rw [db_lookup_update_self, h]; rfl
  refine ⟨?_, ?_, ?_, ?_⟩
  · rw [finalize_eq_of_found path input_file r2 o2 db e h,
        finalize_eq_of_found path input_file r2 o2 _ _ hl2, db_update_comp]
    exact congrArg (db_update db input_file)
      (funext fun e0 => finalize_entry_idem r2 o2 e0)
  · rw [finalize_eq_of_found path input_file r1 o1 db e h,
        finalize_eq_of_found path input_file r2 o2 _ _ hl1,
        finalize_eq_of_found path input_file r2 o2 db e h, db_update_comp,
        db_lookup_update_self, db_lookup_update_self, h]
    show some (finalize_entry r2 o2 (finalize_entry r1 o1 e))
        = some (finalize_entry r2 o2 e)
    exact congrArg some (finalize_entry_absorb r1 r2 o1 o2 e)
  · unfold ProcessingLog.finish_logging
    rw [h]
  · rw [db_lookup_update_self, h]; rfl

/-- C7 witness: on a concrete one-row database the double finalize
equals the single finalize. -/
theorem processing_log_finalize_and_append_witness :
    db_lookup wDb "f" = some wEntry
    ∧ ProcessingLog.finalize (some "p") "f" none "out"
        (ProcessingLog.finalize (some "p") "f" none "out" wDb)
      = ProcessingLog.finalize (some "p") "f" none "out" wDb := by
  have hl : db_lookup wDb "f" = some wEntry := by
    simp [wDb, db_lookup]
  exact ⟨hl, (processing_log_finalize_and_append "p" "f" "cap" wDb wEntry hl
    none none "out" "out").1⟩

/-- C8: with database_path set to None, entry initialisation, log-text
persistence and finalize all return without changing any database
state, and finish_logging raises no error. -/
theorem processing_log_noop_without_database
    (input_file : String) (now : ℕ) (captured : String)
    (results : Option TiwpStats) (output_file : String) (db : LogDb) :
    ProcessingLog.init_entry none input_file now db = db
    ∧ ProcessingLog.finish_logging none input_file captured db = some db
    ∧ ProcessingLog.finalize none input_file results output_file db = db :=
  ⟨rfl, rfl, rfl⟩

/-- C9: when no working directory was given at construction and none is
passed to get, the call fails immediately with the ValueError message
and never returns a download result. -/
theorem remote_file_get_requires_working_dir (rf : RemoteFile)
    (h : rf.working_dir = none) :
    rf.get none
      = Except.error "A working_dir must be provided either on creation of the RemoteFile object or when the get method is called."
    ∧ ∀ result : String × List RemoteAction, rf.get none ≠ Except.ok result := by
  have hget : rf.get none
      = Except.error "A working_dir must be provided either on creation of the RemoteFile object or when the get method is called." := by
    simp only [RemoteFile.get, h]
  exact ⟨hget, fun result hcontra => by
    rw [hget] at hcontra
    exact Except.noConfusion hcontra⟩

/-- C9 witness: a concrete RemoteFile built without a working directory
fails with the ValueError message. -/
theorem remote_file_get_requires_working_dir_witness :
    wRemote.working_dir = none
    ∧ wRemote.get none
      = Except.error "A working_dir must be provided either on creation of the RemoteFile object or when the get method is called." :=
  ⟨rfl, (remote_file_get_requires_working_dir wRemote rfl).1⟩

/-- C3 counterexample: a contiguous 16 by 16 block of the missing
sentinel surrounded by valid pixels is completely bridged by the
8-iteration closing (the diamond-shaped structuring element of radius 8
does not fit inside a 16-pixel-wide hole), so the invalid mask is false
at every pixel of the block, including its centre, instead of true over
the block. -/
theorem invalid_mask_block16_counterexample :
    maskCell (get_invalid_mask_elem [tileBlock16]) 8 8 = false
    ∧ allFalse (get_invalid_mask_elem [tileBlock16]) = true := by
  exact ⟨by decide, by decide⟩

/-- C3 amended: the invalid mask is computed per batch element by
thresholding at -1.4, reflect-padding by 8 pixels, an 8-iteration
binary closing, cropping and inverting; a single isolated sentinel
pixel yields an all-false mask, while a contiguous sentinel block must
exceed 16 pixels in extent before any pixel is flagged: a 17 by 17
block yields a mask that is true at the centre of the block (over the
inscribed diamond of radius 8) but still false at the block corners. -/
theorem invalid_mask_behaviour :
    (∀ batch : List (List (List (List ℚ))),
        get_invalid_mask batch = batch.map get_invalid_mask_elem)
    ∧ allFalse (get_invalid_mask_elem [tileIsolated]) = true
    ∧ maskCell (get_invalid_mask_elem [tileBlock17]) 9 9 = true
    ∧ maskCell (get_invalid_mask_elem [tileBlock17]) 1 1 = false := by
  exact ⟨fun _ => rfl, by decide, by decide, by decide⟩

end CCIC
